import Mathlib

/-!
Verification development for the Cinder-MeshViewer glTF loader (src/src/cigltf.cpp)
and the bundled yocto command-line utility header (src/unnamed/part_000).

The embedding follows the CINDER_LESS compilation path of cigltf.cpp, in which
all GPU (OpenGL / Cinder) resource creation is compiled out; what remains is the
data-marshalling layer from the tinygltf object model into wrapper objects.
Floating-point values (key-frame times, transforms) are modelled by rationals,
machine byte buffers by lists of naturals, and `size_t` arithmetic by naturals
with explicit reduction modulo 2 ^ 64 where wraparound matters.  Unchecked
`std::vector::operator[]` indexing is modelled by an `Option`-valued lookup, so
an out-of-bounds access surfaces as `none`.
-/

/-- Modulus of `size_t` arithmetic (64-bit). -/
def USIZE : Nat := 2 ^ 64

/-- Result of `v[i]` on a `std::vector` indexed by a C++ `int`: `none` models an
out-of-bounds (undefined-behaviour) access. -/
def idxGet {α : Type} (l : List α) (i : Int) : Option α :=
  if 0 ≤ i then l.get? i.toNat else none

/-- Totalised unchecked indexing.  Used only inside `BufferViewGLTF.create`,
whose pipeline entry `BufferViewGLTF.createChecked` guards the index first, so
the default is never reached on a run that survives. -/
def idxGetD {α : Type} (l : List α) (i : Int) (d : α) : α :=
  (idxGet l i).getD d

/-- Computes `n - 1` in `size_t` arithmetic: for `n = 0` this underflows to
`2 ^ 64 - 1`, exactly as `sampler.inputs.size() - 1` does in the source. -/
def sizeSub1 (n : Nat) : Nat := (n + (USIZE - 1)) % USIZE

namespace tinygltf

/-- tinygltf::Buffer, restricted to the fields the loader reads. -/
structure Buffer where
  data : List Nat := []
  name : String := ""
deriving DecidableEq

/-- tinygltf::BufferView (byteOffset/byteLength are `size_t`, modelled as Nat). -/
structure BufferView where
  buffer : Int := -1
  byteOffset : Nat := 0
  byteLength : Nat := 0
  byteStride : Nat := 0
  target : Int := 0
  name : String := ""
deriving DecidableEq

/-- tinygltf::Accessor, restricted to the fields the loader reads. -/
structure Accessor where
  bufferView : Int := -1
  byteOffset : Nat := 0
  componentType : Int := -1
  count : Nat := 0
  type : Int := -1
  name : String := ""
deriving DecidableEq

/-- tinygltf::Image (pixel payloads are not modelled; no claim reads them). -/
structure Image where
  uri : String := ""
  name : String := ""
deriving DecidableEq

/-- tinygltf::Sampler. -/
structure Sampler where
  minFilter : Int := -1
  magFilter : Int := -1
  name : String := ""
deriving DecidableEq

/-- tinygltf::Texture. -/
structure Texture where
  source : Int := -1
  sampler : Int := -1
  name : String := ""
deriving DecidableEq

/-- Scalar layer of tinygltf::Value as inspected by MaterialGLTF::create: an
integer, a floating-point number (rational stand-in), or any other value.
On a value of another type, Get of an int returns 0 and Get of a double
returns 0, matching the default-initialized members of tinygltf::Value. -/
inductive ScalarValue where
  | intV (v : Int)
  | realV (v : ℚ)
  | otherV
deriving DecidableEq

/-- tinygltf Value Get of an int. -/
def ScalarValue.getInt : ScalarValue → Int
  | .intV v => v
  | _ => 0

/-- tinygltf Value Get of a double. -/
def ScalarValue.getReal : ScalarValue → ℚ
  | .realV v => v
  | _ => 0

/-- tinygltf Value IsInt. -/
def ScalarValue.isInt : ScalarValue → Bool
  | .intV _ => true
  | _ => false

/-- tinygltf Value IsNumber: an int or a real. -/
def ScalarValue.isNumber : ScalarValue → Bool
  | .intV _ => true
  | .realV _ => true
  | _ => false

/-- One field of a pbrSpecularGlossiness extension object, at the shapes
MaterialGLTF::create inspects: a texture-info object of scalar entries, an
array of scalars, a bare scalar, or anything else (on which IsObject is false
and ArrayLen is 0). -/
inductive FieldValue where
  | object (entries : List (String × ScalarValue))
  | array (items : List ScalarValue)
  | scalar (s : ScalarValue)
  | otherV
deriving DecidableEq

/-- tinygltf Value ArrayLen: the array size, 0 for a non-array. -/
def FieldValue.arrayLen : FieldValue → Nat
  | .array items => items.length
  | _ => 0

/-- The items of an array value (only read under an ArrayLen assert). -/
def FieldValue.arrayItems : FieldValue → List ScalarValue
  | .array items => items
  | _ => []

/-- The scalar view of a field value: IsInt/IsNumber/Get on a non-scalar
behave like on a default-constructed Value. -/
def FieldValue.asScalar : FieldValue → ScalarValue
  | .scalar s => s
  | _ => .otherV

/-- Lookup in a Value object; tinygltf objects are std::map, so the
association lists are taken to be in sorted key order. -/
def objLookup (entries : List (String × ScalarValue)) (key : String) :
    Option ScalarValue :=
  (entries.find? (fun kv => kv.1 == key)).map (fun kv => kv.2)

/-- Indexing a Value object with operator[] and reading the entry: a missing
key default-constructs a Value, whose integer read is 0. -/
def objGetScalar (entries : List (String × ScalarValue)) (key : String) : ScalarValue :=
  (objLookup entries key).getD ScalarValue.otherV

/-- Extension value of tinygltf::Material::extensions: an object of fields or
any other value (on which IsObject is false). -/
inductive ExtensionValue where
  | object (fields : List (String × FieldValue))
  | otherV
deriving DecidableEq

/-- tinygltf::TextureInfo. -/
structure TextureInfo where
  index : Int := -1
  texCoord : Int := 0
deriving DecidableEq

/-- tinygltf::NormalTextureInfo. -/
structure NormalTextureInfo where
  index : Int := -1
  texCoord : Int := 0
  scale : ℚ := 1
deriving DecidableEq

/-- tinygltf::OcclusionTextureInfo. -/
structure OcclusionTextureInfo where
  index : Int := -1
  texCoord : Int := 0
  strength : ℚ := 1
deriving DecidableEq

/-- tinygltf::PbrMetallicRoughness (double factors modelled as rationals). -/
structure PbrMetallicRoughness where
  baseColorFactor : List ℚ := [1, 1, 1, 1]
  baseColorTexture : TextureInfo := {}
  metallicFactor : ℚ := 1
  roughnessFactor : ℚ := 1
  metallicRoughnessTexture : TextureInfo := {}
deriving DecidableEq

/-- tinygltf::Material with the fields MaterialGLTF::create reads; extension
values are kept at the shapes the create code inspects (the extension map is
a std::map, so the association list is taken to be in sorted key order). -/
structure Material where
  name : String := ""
  alphaMode : String := "OPAQUE"
  alphaCutoff : ℚ := 1 / 2
  doubleSided : Bool := false
  pbrMetallicRoughness : PbrMetallicRoughness := {}
  emissiveTexture : TextureInfo := {}
  emissiveFactor : List ℚ := [0, 0, 0]
  normalTexture : NormalTextureInfo := {}
  occlusionTexture : OcclusionTextureInfo := {}
  extensions : List (String × ExtensionValue) := []
deriving DecidableEq

/-- tinygltf::Primitive; `attributes` is a std::map from attribute name to
accessor index, so the association list is taken to be in sorted key order. -/
structure Primitive where
  material : Int := -1
  indices : Int := -1
  mode : Int := 4
  attributes : List (String × Int) := []
deriving DecidableEq

/-- tinygltf::Mesh. -/
structure Mesh where
  name : String := ""
  primitives : List Primitive := []
deriving DecidableEq

/-- tinygltf::Skin. -/
structure Skin where
  name : String := ""
deriving DecidableEq

/-- tinygltf::Camera. -/
structure Camera where
  type : String := ""
  name : String := ""
deriving DecidableEq

/-- tinygltf::Node (transform fields are floating point and not modelled; no
claim concerns them). -/
structure Node where
  name : String := ""
  camera : Int := -1
  mesh : Int := -1
  skin : Int := -1
  children : List Int := []
deriving DecidableEq

/-- tinygltf::Scene. -/
structure Scene where
  name : String := ""
  nodes : List Int := []
deriving DecidableEq

/-- tinygltf::AnimationChannel: `target_node` defaults to `-1` when the channel
does not specify a target node. -/
structure AnimationChannel where
  sampler : Int := -1
  target_node : Int := -1
  target_path : String := ""
deriving DecidableEq

/-- tinygltf::AnimationSampler. -/
structure AnimationSampler where
  input : Int := -1
  output : Int := -1
  interpolation : String := "LINEAR"
deriving DecidableEq

/-- tinygltf::Animation. -/
structure Animation where
  name : String := ""
  channels : List AnimationChannel := []
  samplers : List AnimationSampler := []
deriving DecidableEq

/-- tinygltf::Model, restricted to the collections ModelGLTF::create walks. -/
structure Model where
  buffers : List Buffer := []
  bufferViews : List BufferView := []
  accessors : List Accessor := []
  images : List Image := []
  samplers : List Sampler := []
  textures : List Texture := []
  materials : List Material := []
  meshes : List Mesh := []
  skins : List Skin := []
  cameras : List Camera := []
  nodes : List Node := []
  scenes : List Scene := []
  animations : List Animation := []
  defaultScene : Int := -1
deriving DecidableEq

end tinygltf

/-- GltfType enumeration; the numeric values are the tinygltf TINYGLTF_TYPE_*
constants that `property.type` holds and the source casts against. -/
inductive GltfType where
  | TYPE_SCALAR
  | TYPE_VEC2
  | TYPE_VEC3
  | TYPE_VEC4
  | TYPE_MAT2
  | TYPE_MAT3
  | TYPE_MAT4
deriving DecidableEq

/-- Integer value of a GltfType, matching tinygltf (`(int)assumedType`). -/
def GltfType.toInt : GltfType → Int
  | .TYPE_SCALAR => 65
  | .TYPE_VEC2 => 2
  | .TYPE_VEC3 => 3
  | .TYPE_VEC4 => 4
  | .TYPE_MAT2 => 34
  | .TYPE_MAT3 => 35
  | .TYPE_MAT4 => 36

/-- GltfComponentType enumeration with tinygltf numeric values. -/
inductive GltfComponentType where
  | COMPONENT_TYPE_BYTE
  | COMPONENT_TYPE_UNSIGNED_BYTE
  | COMPONENT_TYPE_SHORT
  | COMPONENT_TYPE_UNSIGNED_SHORT
  | COMPONENT_TYPE_INT
  | COMPONENT_TYPE_UNSIGNED_INT
  | COMPONENT_TYPE_FLOAT
  | COMPONENT_TYPE_DOUBLE
deriving DecidableEq

/-- Integer value of a GltfComponentType, matching tinygltf. -/
def GltfComponentType.toInt : GltfComponentType → Int
  | .COMPONENT_TYPE_BYTE => 5120
  | .COMPONENT_TYPE_UNSIGNED_BYTE => 5121
  | .COMPONENT_TYPE_SHORT => 5122
  | .COMPONENT_TYPE_UNSIGNED_SHORT => 5123
  | .COMPONENT_TYPE_INT => 5124
  | .COMPONENT_TYPE_UNSIGNED_INT => 5125
  | .COMPONENT_TYPE_FLOAT => 5126
  | .COMPONENT_TYPE_DOUBLE => 5130

/-- getComponentSizeInBytes from cigltf.cpp. -/
def getComponentSizeInBytes : GltfComponentType → Int
  | .COMPONENT_TYPE_BYTE => 1
  | .COMPONENT_TYPE_UNSIGNED_BYTE => 1
  | .COMPONENT_TYPE_SHORT => 2
  | .COMPONENT_TYPE_UNSIGNED_SHORT => 2
  | .COMPONENT_TYPE_INT => 4
  | .COMPONENT_TYPE_UNSIGNED_INT => 4
  | .COMPONENT_TYPE_FLOAT => 4
  | .COMPONENT_TYPE_DOUBLE => 8

/-- getTypeSizeInBytes from cigltf.cpp. -/
def getTypeSizeInBytes : GltfType → Int
  | .TYPE_SCALAR => 1
  | .TYPE_VEC2 => 2
  | .TYPE_VEC3 => 3
  | .TYPE_VEC4 => 4
  | .TYPE_MAT2 => 4
  | .TYPE_MAT3 => 9
  | .TYPE_MAT4 => 16

/-- BufferGLTF wrapper: `cpuBuffer` is the WeakBuffer over `property.data`. -/
structure BufferGLTF where
  property : tinygltf.Buffer
  cpuBuffer : List Nat
deriving DecidableEq

/-- BufferGLTF::create. -/
def BufferGLTF.create (p : tinygltf.Buffer) : BufferGLTF :=
  { property := p, cpuBuffer := p.data }

/-- Stand-in for the value an out-of-bounds buffer access would yield. -/
def BufferGLTF.empty : BufferGLTF :=
  { property := {}, cpuBuffer := [] }

/-- BufferViewGLTF wrapper (gpuBuffer is compiled out under CINDER_LESS). -/
structure BufferViewGLTF where
  property : tinygltf.BufferView
  target : Int
  cpuBuffer : List Nat
deriving DecidableEq

/-- Conjunction of the CI_ASSERT conditions in BufferViewGLTF::create.
`byteLength` and `byteOffset` are `size_t`, so comparing them against `-1`
compares against `2 ^ 64 - 1`. -/
def BufferViewGLTF.assertsOk (buffers : List BufferGLTF) (p : tinygltf.BufferView) : Prop :=
  p.buffer ≠ -1 ∧ p.byteLength ≠ USIZE - 1 ∧ p.byteOffset ≠ USIZE - 1 ∧
    p.byteOffset + p.byteLength ≤ (idxGetD buffers p.buffer BufferGLTF.empty).cpuBuffer.length

/-- BufferViewGLTF::create: windows `byteLength` bytes of the parent buffer
starting at `byteOffset` (the NDEBUG data path; the assert conditions are
captured by `BufferViewGLTF.assertsOk`). -/
def BufferViewGLTF.create (buffers : List BufferGLTF) (p : tinygltf.BufferView) : BufferViewGLTF :=
  let buffer := idxGetD buffers p.buffer BufferGLTF.empty
  { property := p
    target := p.target
    cpuBuffer := (buffer.cpuBuffer.drop p.byteOffset).take p.byteLength }

/-- AccessorGLTF wrapper: byteStride and cpuBuffer are copied from the
referenced buffer view. -/
structure AccessorGLTF where
  property : tinygltf.Accessor
  byteStride : Nat
  cpuBuffer : List Nat
deriving DecidableEq

instance (buffers : List BufferGLTF) (p : tinygltf.BufferView) :
    Decidable (BufferViewGLTF.assertsOk buffers p) :=
  inferInstanceAs (Decidable (p.buffer ≠ -1 ∧ p.byteLength ≠ USIZE - 1
    ∧ p.byteOffset ≠ USIZE - 1
    ∧ p.byteOffset + p.byteLength
        ≤ (idxGetD buffers p.buffer BufferGLTF.empty).cpuBuffer.length))

/-- Abort-aware entry to BufferViewGLTF::create used by the model pipeline: a
failing CI_ASSERT or an out-of-bounds `buffers[property.buffer]` access
terminates the program, surfaced as `none`; otherwise the result is exactly
`BufferViewGLTF.create`. -/
def BufferViewGLTF.createChecked (buffers : List BufferGLTF) (p : tinygltf.BufferView) :
    Option BufferViewGLTF := do
  let _ ← idxGet buffers p.buffer
  if BufferViewGLTF.assertsOk buffers p then pure (BufferViewGLTF.create buffers p) else none

/-- AccessorGLTF::create: `modelGLTF->bufferViews[property.bufferView]` is
unchecked — for an accessor without a buffer view (bufferView = -1, legal in
parsed glTF, e.g. sparse accessors) or an out-of-bounds index the access is
undefined behaviour, surfaced as `none`. -/
def AccessorGLTF.create (bufferViews : List BufferViewGLTF) (p : tinygltf.Accessor) :
    Option AccessorGLTF := do
  let bufferView ← idxGet bufferViews p.bufferView
  pure { property := p
         byteStride := bufferView.property.byteStride
         cpuBuffer := bufferView.cpuBuffer }

/-- WeakBuffer as produced by createFromAccessor: a window of the accessor
bytes tagged with the assumed type. -/
structure WeakBuffer where
  data : List Nat
  type : GltfType
  componentType : GltfComponentType
deriving DecidableEq

/-- createFromAccessor from cigltf.cpp: the two leading CI_ASSERTs are modelled
as a guard (a failing assert aborts, modelled as `none`); on success the result
windows `typeSize * compSize * count` bytes starting at the accessor offset. -/
def createFromAccessor (acc : AccessorGLTF) (assumedType : GltfType)
    (assumedComponentType : GltfComponentType) : Option WeakBuffer :=
  if acc.property.type = assumedType.toInt ∧
      acc.property.componentType = assumedComponentType.toInt then
    some { data := (acc.cpuBuffer.drop acc.property.byteOffset).take
             ((getTypeSizeInBytes assumedType * getComponentSizeInBytes assumedComponentType).toNat
               * acc.property.count)
           type := assumedType
           componentType := assumedComponentType }
  else none

/-- ImageGLTF wrapper (surface decoding is GPU/asset-manager code, elided). -/
structure ImageGLTF where
  property : tinygltf.Image
deriving DecidableEq

/-- ImageGLTF::create. -/
def ImageGLTF.create (p : tinygltf.Image) : ImageGLTF := { property := p }

/-- SamplerGLTF wrapper (GL sampler object creation is compiled out). -/
structure SamplerGLTF where
  property : tinygltf.Sampler
deriving DecidableEq

/-- SamplerGLTF::create. -/
def SamplerGLTF.create (p : tinygltf.Sampler) : SamplerGLTF := { property := p }

/-- TextureGLTF wrapper; `imageSource` is `modelGLTF->images[property.source]`
(GL texture creation is compiled out under CINDER_LESS). -/
structure TextureGLTF where
  property : tinygltf.Texture
  imageSource : ImageGLTF
deriving DecidableEq

/-- TextureGLTF::create: the `images[property.source]` access happens
unconditionally — for a texture without a source image (source = -1, legal in
parsed glTF) or an out-of-bounds index it is undefined behaviour, surfaced as
`none`. -/
def TextureGLTF.create (images : List ImageGLTF) (p : tinygltf.Texture) :
    Option TextureGLTF := do
  let imageSource ← idxGet images p.source
  pure { property := p, imageSource := imageSource }

/-- MaterialType from cigltf.h. -/
inductive MaterialType where
  | MATERIAL_PBR_METAL_ROUGHNESS
  | MATERIAL_PBR_SPEC_GLOSSINESS
  | MATERIAL_UNLIT
deriving DecidableEq

/-- AlphaMode from cigltf.h. -/
inductive AlphaMode where
  | ALPHA_OPAQUE
  | ALPHA_MASK
  | ALPHA_BLEND
deriving DecidableEq

/-- MaterialGLTF wrapper with the fields assigned by the common (non-GPU)
part of MaterialGLTF::create; the shader format construction that follows is
compiled out under CINDER_LESS.  `specularGlossinessTexture` is declared in
the source but never assigned by create — the specularGlossinessTexture
extension field stores into `metallicRoughnessTexture` instead.  Initial
field values follow the glTF defaults. -/
structure MaterialGLTF where
  property : tinygltf.Material
  doubleSided : Bool := false
  alphaMode : AlphaMode := AlphaMode.ALPHA_OPAQUE
  alphaCutoff : ℚ := 1 / 2
  baseColorTexture : Option TextureGLTF := none
  baseColorFacor : List ℚ := [1, 1, 1, 1]
  metallicRoughnessTexture : Option TextureGLTF := none
  metallicFactor : ℚ := 1
  roughnessFactor : ℚ := 1
  emissiveTexture : Option TextureGLTF := none
  emissiveFactor : List ℚ := [0, 0, 0]
  normalTexture : Option TextureGLTF := none
  normalTextureCoord : Int := 0
  normalTextureScale : ℚ := 1
  occlusionTexture : Option TextureGLTF := none
  occlusionStrength : ℚ := 1
  materialType : MaterialType := MaterialType.MATERIAL_PBR_METAL_ROUGHNESS
  diffuseTexture : Option TextureGLTF := none
  diffuseTextureCoord : Int := 0
  diffuseFactor : List ℚ := [1, 1, 1, 1]
  specularFactor : List ℚ := [0, 0, 0]
  glossinessFactor : ℚ := 1
  specularGlossinessTexture : Option TextureGLTF := none
deriving DecidableEq

/-- `if (info.index >= 0) slot = modelGLTF->textures[info.index];` — the
lookup is unchecked, so an out-of-bounds index is undefined behaviour,
surfaced as `none` of the whole computation. -/
def MaterialGLTF.textureSlot (textures : List TextureGLTF) (index : Int) :
    Option (Option TextureGLTF) :=
  if 0 ≤ index then do
    let t ← idxGet textures index
    pure (some t)
  else pure none

/-- One field of the KHR_materials_pbrSpecularGlossiness extension object, as
handled by the inner loop of MaterialGLTF::create; a failing CI_ASSERT or an
out-of-bounds texture lookup aborts (`none`), and unrecognized field keys are
ignored. -/
def MaterialGLTF.specGlossField (textures : List TextureGLTF) (m : MaterialGLTF)
    (kv : String × tinygltf.FieldValue) : Option MaterialGLTF :=
  if kv.1 = "diffuseTexture" then
    match kv.2 with
    | tinygltf.FieldValue.object obj => do
      let index := (tinygltf.objGetScalar obj ("index")).getInt
      let t ← idxGet textures index
      let m2 := { m with diffuseTexture := some t }
      match tinygltf.objLookup obj ("texCoord") with
      | some sc => pure { m2 with diffuseTextureCoord := sc.getInt }
      | none => pure m2
    | _ => none
  else if kv.1 = "specularGlossinessTexture" then
    match kv.2 with
    | tinygltf.FieldValue.object obj => do
      let index := (tinygltf.objGetScalar obj ("index")).getInt
      let t ← idxGet textures index
      pure { m with metallicRoughnessTexture := some t }
    | _ => none
  else if kv.1 = "diffuseFactor" then
    if kv.2.arrayLen = 4 then
      let arr := kv.2.arrayItems
      let a0 := arr.getD 0 tinygltf.ScalarValue.otherV
      if a0.isInt then
        pure { m with diffuseFactor := arr.map (fun s => (s.getInt : ℚ)) }
      else if a0.isNumber then
        pure { m with diffuseFactor := arr.map tinygltf.ScalarValue.getReal }
      else pure m
    else none
  else if kv.1 = "specularFactor" then
    if 3 ≤ kv.2.arrayLen then
      let arr := (kv.2.arrayItems).take 3
      let a0 := arr.getD 0 tinygltf.ScalarValue.otherV
      if a0.isInt then
        pure { m with specularFactor := arr.map (fun s => (s.getInt : ℚ)) }
      else if a0.isNumber then
        pure { m with specularFactor := arr.map tinygltf.ScalarValue.getReal }
      else pure m
    else none
  else if kv.1 = "glossinessFactor" then
    let s := kv.2.asScalar
    if s.isInt then pure { m with glossinessFactor := (s.getInt : ℚ) }
    else if s.isNumber then pure { m with glossinessFactor := s.getReal }
    else pure m
  else pure m

/-- One entry of the extensions loop of MaterialGLTF::create: unlit sets the
material type, pbrSpecularGlossiness must be an object (CI_ASSERT) and its
fields are folded, and any other extension key hits `CI_ASSERT(0)`, aborting
the program (`none`). -/
def MaterialGLTF.extensionStep (textures : List TextureGLTF) (m : MaterialGLTF)
    (ext : String × tinygltf.ExtensionValue) : Option MaterialGLTF :=
  if ext.1 = "KHR_materials_unlit" then
    pure { m with materialType := MaterialType.MATERIAL_UNLIT }
  else if ext.1 = "KHR_materials_pbrSpecularGlossiness" then
    let m2 := { m with materialType := MaterialType.MATERIAL_PBR_SPEC_GLOSSINESS }
    match ext.2 with
    | tinygltf.ExtensionValue.object fields =>
      fields.foldlM (MaterialGLTF.specGlossField textures) m2
    | _ => none
  else none

/-- MaterialGLTF::create, the common non-GPU part (alpha state, PBR texture
slots via unchecked `modelGLTF->textures[...]` lookups, factors, and the
extensions loop).  A failing CI_ASSERT or an out-of-bounds texture index
aborts the program, surfaced as `none`. -/
def MaterialGLTF.create (textures : List TextureGLTF) (p : tinygltf.Material) :
    Option MaterialGLTF := do
  let pbr := p.pbrMetallicRoughness
  let baseColorTexture ← MaterialGLTF.textureSlot textures pbr.baseColorTexture.index
  let metallicRoughnessTexture ←
    MaterialGLTF.textureSlot textures pbr.metallicRoughnessTexture.index
  let emissiveTexture ← MaterialGLTF.textureSlot textures p.emissiveTexture.index
  let normalTexture ← MaterialGLTF.textureSlot textures p.normalTexture.index
  let occlusionTexture ← MaterialGLTF.textureSlot textures p.occlusionTexture.index
  let m : MaterialGLTF :=
    { property := p
      doubleSided := p.doubleSided
      alphaMode := if p.alphaMode = "BLEND" then AlphaMode.ALPHA_BLEND
        else if p.alphaMode = "MASK" then AlphaMode.ALPHA_MASK
        else AlphaMode.ALPHA_OPAQUE
      alphaCutoff := if p.alphaMode = "MASK" then p.alphaCutoff else 1 / 2
      baseColorTexture := baseColorTexture
      baseColorFacor :=
        if pbr.baseColorFactor.length = 4 then pbr.baseColorFactor else [1, 1, 1, 1]
      metallicRoughnessTexture := metallicRoughnessTexture
      metallicFactor := pbr.metallicFactor
      roughnessFactor := pbr.roughnessFactor
      emissiveTexture := emissiveTexture
      emissiveFactor :=
        if p.emissiveFactor.length = 3 then p.emissiveFactor else [0, 0, 0]
      normalTexture := normalTexture
      normalTextureCoord :=
        if p.normalTexture.index ≥ 0 then p.normalTexture.texCoord else 0
      normalTextureScale := p.normalTexture.scale
      occlusionTexture := occlusionTexture
      occlusionStrength := p.occlusionTexture.strength
      materialType := MaterialType.MATERIAL_PBR_METAL_ROUGHNESS }
  p.extensions.foldlM (MaterialGLTF.extensionStep textures) m

/-- PrimitiveGLTF wrapper, CINDER_LESS path: resolved material, index buffer
and vertex attribute windows, plus counts. -/
structure PrimitiveGLTF where
  property : tinygltf.Primitive
  primitiveMode : Int
  material : Option MaterialGLTF
  indices : Option WeakBuffer
  indexCount : Nat
  positions : Option WeakBuffer
  normals : Option WeakBuffer
  uvs : Option WeakBuffer
  vertexCount : Nat
deriving DecidableEq

/-- One iteration of the attribute loop of PrimitiveGLTF::create under
CINDER_LESS: the `modelGLTF->accessors[kv.second]` lookup is unchecked, the
POSITION/NORMAL/TEXCOORD_0 windows go through createFromAccessor with its
type asserts, and vertexCount is taken from the accessor. -/
def PrimitiveGLTF.attribStep (accessors : List AccessorGLTF) (prim : PrimitiveGLTF)
    (kv : String × Int) : Option PrimitiveGLTF := do
  let acc ← idxGet accessors kv.2
  let prim ←
    if kv.1 = "POSITION" then do
      let w ← createFromAccessor acc GltfType.TYPE_VEC3 GltfComponentType.COMPONENT_TYPE_FLOAT
      pure { prim with positions := some w }
    else pure prim
  let prim ←
    if kv.1 = "NORMAL" then do
      let w ← createFromAccessor acc GltfType.TYPE_VEC3 GltfComponentType.COMPONENT_TYPE_FLOAT
      pure { prim with normals := some w }
    else pure prim
  let prim ←
    if kv.1 = "TEXCOORD_0" then do
      let w ← createFromAccessor acc GltfType.TYPE_VEC2 GltfComponentType.COMPONENT_TYPE_FLOAT
      pure { prim with uvs := some w }
    else pure prim
  pure { prim with vertexCount := acc.property.count }

/-- PrimitiveGLTF::create, CINDER_LESS path: material resolution (fallback
material for -1, unchecked `modelGLTF->materials[...]` when textures are
loaded), the index accessor with its createFromAccessor(SCALAR, UNSIGNED_INT)
asserts, and the attribute loop.  A failing assert or out-of-bounds index
aborts the program, surfaced as `none`. -/
def PrimitiveGLTF.create (fallbackMaterial : MaterialGLTF)
    (materials : List MaterialGLTF) (accessors : List AccessorGLTF)
    (loadTextures : Bool) (p : tinygltf.Primitive) : Option PrimitiveGLTF := do
  let material : Option MaterialGLTF ←
    if p.material = -1 then pure (some fallbackMaterial)
    else if loadTextures then do
      let m ← idxGet materials p.material
      pure (some m)
    else pure none
  let indicesAcc : Option AccessorGLTF ←
    if p.indices ≥ 0 then do
      let a ← idxGet accessors p.indices
      pure (some a)
    else pure none
  let prim0 : PrimitiveGLTF :=
    { property := p, primitiveMode := p.mode, material := material
      indices := none, indexCount := 0
      positions := none, normals := none, uvs := none, vertexCount := 0 }
  let prim1 ←
    match indicesAcc with
    | some acc => do
      let w ← createFromAccessor acc GltfType.TYPE_SCALAR
        GltfComponentType.COMPONENT_TYPE_UNSIGNED_INT
      pure { prim0 with indices := some w, indexCount := acc.property.count }
    | none => pure prim0
  p.attributes.foldlM (PrimitiveGLTF.attribStep accessors) prim1

/-- MeshGLTF wrapper: one PrimitiveGLTF per mesh primitive. -/
structure MeshGLTF where
  property : tinygltf.Mesh
  primitives : List PrimitiveGLTF
deriving DecidableEq

/-- MeshGLTF::create: one primitive per entry via PrimitiveGLTF::create (the
VBO labelling that follows it is GPU code compiled out under CINDER_LESS); a
primitive abort aborts the mesh construction. -/
def MeshGLTF.create (fallbackMaterial : MaterialGLTF) (materials : List MaterialGLTF)
    (accessors : List AccessorGLTF) (loadTextures : Bool) (p : tinygltf.Mesh) :
    Option MeshGLTF := do
  let primitives ← p.primitives.mapM
    (PrimitiveGLTF.create fallbackMaterial materials accessors loadTextures)
  pure { property := p, primitives := primitives }

/-- SkinGLTF wrapper. -/
structure SkinGLTF where
  property : tinygltf.Skin
deriving DecidableEq

/-- SkinGLTF::create. -/
def SkinGLTF.create (p : tinygltf.Skin) : SkinGLTF := { property := p }

/-- CameraGLTF wrapper: records the perspective branch taken by create. -/
structure CameraGLTF where
  property : tinygltf.Camera
  isPerspective : Bool
deriving DecidableEq

/-- CameraGLTF::create. -/
def CameraGLTF.create (p : tinygltf.Camera) : CameraGLTF :=
  { property := p, isPerspective := p.type = "perspective" }

/-- NodeGLTF wrapper; camera/mesh/skin are the unchecked `modelGLTF->xxx[idx]`
lookups, transforms (floating point) are elided. -/
structure NodeGLTF where
  property : tinygltf.Node
  camera : Option CameraGLTF
  mesh : Option MeshGLTF
  skin : Option SkinGLTF
  name : String
deriving DecidableEq

/-- NodeGLTF::create: resolves the camera/mesh/skin references — each
`modelGLTF->xxx[index]` lookup is unchecked, so an index other than -1 that
is out of bounds is undefined behaviour (a garbage shared_ptr copy), surfaced
as `none`; the node name is the mesh name when a mesh is attached, overridden
by a non-empty node name.  Transforms are floating point and elided. -/
def NodeGLTF.create (meshes : List MeshGLTF) (cameras : List CameraGLTF)
    (skins : List SkinGLTF) (p : tinygltf.Node) : Option NodeGLTF := do
  let camera : Option CameraGLTF ←
    if p.camera ≠ -1 then do
      let c ← idxGet cameras p.camera
      pure (some c)
    else pure none
  let mesh : Option MeshGLTF ←
    if p.mesh ≠ -1 then do
      let m ← idxGet meshes p.mesh
      pure (some m)
    else pure none
  let skin : Option SkinGLTF ←
    if p.skin ≠ -1 then do
      let s ← idxGet skins p.skin
      pure (some s)
    else pure none
  let meshName := match mesh with
    | some m => m.property.name
    | none => ""
  pure { property := p, camera := camera, mesh := mesh, skin := skin
         name := if p.name ≠ "" then p.name else meshName }

/-- SceneGLTF wrapper: the resolved root nodes of the scene. -/
structure SceneGLTF where
  sceneProperty : tinygltf.Scene
  children : List NodeGLTF
  name : String
deriving DecidableEq

/-- SceneGLTF::create: each `modelGLTF->nodes[item]` root-node lookup is
unchecked, so an out-of-bounds index is undefined behaviour, surfaced as
`none`. -/
def SceneGLTF.create (nodes : List NodeGLTF) (p : tinygltf.Scene) :
    Option SceneGLTF := do
  let children ← p.nodes.mapM (fun i => idxGet nodes i)
  pure { sceneProperty := p
         children := children
         name := if p.name ≠ "" then p.name else "" }

/-- AnimationChannel::PathType from cigltf.h. -/
inductive PathType where
  | TRANSLATION
  | SCALE
  | ROTATION
deriving DecidableEq

/-- melo AnimationChannel: `node` is the integer copied from
`source.target_node`; `path` is `none` when no known target_path matched. -/
structure AnimationChannel where
  property : tinygltf.AnimationChannel := {}
  path : Option PathType := none
  samplerIndex : Int := -1
  node : Int := -1
deriving DecidableEq

/-- Rational stand-in for glm::vec4. -/
structure Vec4q where
  x : ℚ := 0
  y : ℚ := 0
  z : ℚ := 0
  w : ℚ := 0
deriving DecidableEq

/-- melo AnimationSampler: key-frame inputs and vec4 outputs.  The byte-level
extraction of these lists from accessor data reinterprets raw bytes as IEEE
floats and is outside the embedding. -/
structure AnimationSampler where
  inputs : List ℚ := []
  outputsVec4 : List Vec4q := []
deriving DecidableEq

/-- melo AnimationGLTF (start/end bookkeeping and the timeline hookup are
elided; `animTime` is the current animation time). -/
structure AnimationGLTF where
  property : tinygltf.Animation := {}
  channels : List AnimationChannel := []
  samplers : List AnimationSampler := []
  animTime : ℚ := 0
deriving DecidableEq

/-- Path-string decoding in the channel loop of AnimationGLTF::create. -/
def AnimationGLTF.pathOf (s : String) : Option PathType :=
  if s = "rotation" then some PathType.ROTATION
  else if s = "translation" then some PathType.TRANSLATION
  else if s = "scale" then some PathType.SCALE
  else none

/-- Body of the channel loop of AnimationGLTF::create: a "weights" channel is
skipped; `channel.node = source.target_node` copies the integer node index and
`if (!channel.node) continue;` then skips exactly the channels whose target
node index is `0`. -/
def AnimationGLTF.channelAccum (acc : List AnimationChannel)
    (source : tinygltf.AnimationChannel) : List AnimationChannel :=
  if source.target_path = "weights" then acc
  else if source.target_node = 0 then acc
  else acc ++ [{ property := source
                 path := AnimationGLTF.pathOf source.target_path
                 samplerIndex := source.sampler
                 node := source.target_node }]

/-- AnimationGLTF::create.  The sampler key-frame extraction reinterprets
accessor bytes as floats (outside the embedding); one AnimationSampler is
still produced per property sampler, with unmodelled key-frame lists. -/
def AnimationGLTF.create (p : tinygltf.Animation) : AnimationGLTF :=
  { property := p
    channels := p.channels.foldl AnimationGLTF.channelAccum []
    samplers := p.samplers.map (fun _ => {})
    animTime := 0 }

/-- ModelGLTF::Option (load options). -/
structure LoadOption where
  loadAnimationOnly : Bool := false
  loadTextures : Bool := true
deriving DecidableEq

/-- Observable events of a ModelGLTF::create run: log calls, the invocation of
the tinygltf parser, and the construction of the ModelGLTF wrapper object. -/
inductive Event where
  | parserInvoked
  | logWarn (msg : String)
  | logError (msg : String)
  | logFatal (msg : String)
  | wrapperConstructed (kind : String)
  | aborted (what : String)
deriving DecidableEq

/-- Outcome of LoadBinaryFromFile / LoadASCIIFromFile: the return flag, the
error and warning strings, and the populated model. -/
structure ParseResult where
  ret : Bool := false
  err : String := ""
  warn : String := ""
  model : tinygltf.Model := {}
deriving DecidableEq

/-- The ModelGLTF wrapper node (scene-graph base-class state beyond the child
list is elided). -/
structure ModelGLTF where
  option : LoadOption
  property : tinygltf.Model
  name : String
  fallbackMaterial : Option MaterialGLTF
  buffers : List BufferGLTF
  bufferViews : List BufferViewGLTF
  accessors : List AccessorGLTF
  images : List ImageGLTF
  samplers : List SamplerGLTF
  textures : List TextureGLTF
  materials : List MaterialGLTF
  meshes : List MeshGLTF
  skins : List SkinGLTF
  cameras : List CameraGLTF
  nodes : List NodeGLTF
  scenes : List SceneGLTF
  currentScene : Option SceneGLTF
  children : List SceneGLTF
  animations : List AnimationGLTF
deriving DecidableEq

/-- Result of a ModelGLTF::create call: the returned ref (`none` is the null
ref, also covering an aborted run), the value behind the loadingError pointer
after the call (`none` when the pointer is null), and the event trace. -/
structure CreateOutcome where
  result : Option ModelGLTF
  loadingErrorOut : Option String
  events : List Event
deriving DecidableEq

/-- The tinygltf::Material built inline for the fallback material. -/
def fallbackMaterialProperty : tinygltf.Material :=
  { name := "default"
    extensions := [("KHR_materials_unlit", tinygltf.ExtensionValue.otherV)] }

/-- The `ref->buffers` list: one BufferGLTF emplaced per model buffer. -/
def ModelGLTF.buffersOf (model : tinygltf.Model) : List BufferGLTF :=
  model.buffers.foldl (fun acc item => acc ++ [BufferGLTF.create item]) []

/-- The `ref->images` list (built only when textures are loaded). -/
def ModelGLTF.imagesOf (model : tinygltf.Model) : List ImageGLTF :=
  model.images.foldl (fun acc item => acc ++ [ImageGLTF.create item]) []

/-- The `ref->samplers` list. -/
def ModelGLTF.samplersOf (model : tinygltf.Model) : List SamplerGLTF :=
  model.samplers.foldl (fun acc item => acc ++ [SamplerGLTF.create item]) []

/-- The `ref->skins` list. -/
def ModelGLTF.skinsOf (model : tinygltf.Model) : List SkinGLTF :=
  model.skins.foldl (fun acc item => acc ++ [SkinGLTF.create item]) []

/-- The `ref->cameras` list. -/
def ModelGLTF.camerasOf (model : tinygltf.Model) : List CameraGLTF :=
  model.cameras.foldl (fun acc item => acc ++ [CameraGLTF.create item]) []

/-- Body of the node loop: NodeGLTF::create followed by the `node_%d` default
name when the source node name is empty (`nodeId` is the loop counter). -/
def ModelGLTF.buildNode (meshes : List MeshGLTF) (cameras : List CameraGLTF)
    (skins : List SkinGLTF) (nodeId : Nat) (item : tinygltf.Node) : Option NodeGLTF := do
  let node ← NodeGLTF.create meshes cameras skins item
  pure (if item.name = "" then { node with name := "node_" ++ toString nodeId } else node)

/-- The `ref->animations` list (built on both load paths). -/
def ModelGLTF.animationsOf (model : tinygltf.Model) : List AnimationGLTF :=
  model.animations.foldl (fun acc item => acc ++ [AnimationGLTF.create item]) []

/-- The effective default scene index: `model.defaultScene`, with the
unspecified value `-1` rewritten to `0` before indexing. -/
def ModelGLTF.effectiveDefaultScene (model : tinygltf.Model) : Int :=
  if model.defaultScene = -1 then 0 else model.defaultScene

/-- The `if (option.loadTextures) { images, samplers, textures, materials }`
block of ModelGLTF::create: when textures are loaded, one wrapper per entry of
each of the four collections (a texture or material abort aborts the program);
otherwise the four lists stay empty. -/
def ModelGLTF.textureQuartet (model : tinygltf.Model) (opt : LoadOption) :
    Option (List ImageGLTF × List SamplerGLTF × List TextureGLTF × List MaterialGLTF) :=
  if opt.loadTextures then do
    let textures ← model.textures.mapM (TextureGLTF.create (ModelGLTF.imagesOf model))
    let materials ← model.materials.mapM (MaterialGLTF.create textures)
    pure (ModelGLTF.imagesOf model, ModelGLTF.samplersOf model, textures, materials)
  else some ([], [], [], [])

/-- The full (non-animation-only) assembly of the wrapper, in source order:
fallback material, buffers, buffer views, accessors, the texture quartet when
loadTextures is set, meshes, skins, cameras, nodes, scenes, and finally the
unchecked `ref->scenes[model.defaultScene]` index.  Any CI_ASSERT failure or
unchecked out-of-bounds access along the way terminates the program — the
whole assembly is then `none` and no wrapper is returned. -/
def ModelGLTF.assemble (model : tinygltf.Model) (opt : LoadOption) (name : String) :
    Option ModelGLTF := do
  let fallbackMaterial ← MaterialGLTF.create [] fallbackMaterialProperty
  let buffers := ModelGLTF.buffersOf model
  let bufferViews ← model.bufferViews.mapM (BufferViewGLTF.createChecked buffers)
  let accessors ← model.accessors.mapM (AccessorGLTF.create bufferViews)
  let tq ← ModelGLTF.textureQuartet model opt
  let meshes ← model.meshes.mapM
    (MeshGLTF.create fallbackMaterial tq.2.2.2 accessors opt.loadTextures)
  let skins := ModelGLTF.skinsOf model
  let cameras := ModelGLTF.camerasOf model
  let nodes ← model.nodes.enum.mapM
    (fun q => ModelGLTF.buildNode meshes cameras skins q.1 q.2)
  let scenes ← model.scenes.mapM (SceneGLTF.create nodes)
  let cs ← idxGet scenes (ModelGLTF.effectiveDefaultScene model)
  pure { option := opt
         property := model
         name := name
         fallbackMaterial := some fallbackMaterial
         buffers := buffers
         bufferViews := bufferViews
         accessors := accessors
         images := tq.1
         samplers := tq.2.1
         textures := tq.2.2.1
         materials := tq.2.2.2
         meshes := meshes
         skins := skins
         cameras := cameras
         nodes := nodes
         scenes := scenes
         currentScene := some cs
         children := [cs]
         animations := ModelGLTF.animationsOf model }

/-- The wrapper returned when `option.loadAnimationOnly` is set: only the
animation list is populated. -/
def ModelGLTF.animationOnlyModel (model : tinygltf.Model) (opt : LoadOption)
    (name : String) : ModelGLTF :=
  { option := opt
    property := model
    name := name
    fallbackMaterial := none
    buffers := []
    bufferViews := []
    accessors := []
    images := []
    samplers := []
    textures := []
    materials := []
    meshes := []
    skins := []
    cameras := []
    nodes := []
    scenes := []
    currentScene := none
    children := []
    animations := ModelGLTF.animationsOf model }

/-- Events emitted between the parser call and the `ret` check: the parse
itself, then the non-empty warning and error strings are logged. -/
def ModelGLTF.loadedEvents (parse : ParseResult) : List Event :=
  [Event.parserInvoked]
    ++ (if parse.warn ≠ "" then [Event.logWarn parse.warn] else [])
    ++ (if parse.err ≠ "" then [Event.logError parse.err] else [])

/-- ModelGLTF::create.  `fileExists` abstracts `fs::exists(meshPath)`, `parse`
the tinygltf Load*FromFile outcome, `loadingError` the string behind the
loadingError pointer (`none` when the pointer is null), `name` the mesh path
string used for setName.  The log text elides the apostrophe of the source
message. -/
def ModelGLTF.create (fileExists : Bool) (parse : ParseResult) (opt : LoadOption)
    (loadingError : Option String) (name : String) : CreateOutcome :=
  if fileExists then
    let ev1 := ModelGLTF.loadedEvents parse
    let le := loadingError.map (fun _ => parse.err)
    if parse.ret then
      let ev2 := ev1 ++ [Event.wrapperConstructed ("ModelGLTF")]
      if opt.loadAnimationOnly then
        { result := some (ModelGLTF.animationOnlyModel parse.model opt name)
          loadingErrorOut := le
          events := ev2 }
      else
        match ModelGLTF.assemble parse.model opt name with
        | some m => { result := some m, loadingErrorOut := le, events := ev2 }
        | none =>
          { result := none
            loadingErrorOut := le
            events := ev2 ++ [Event.aborted ("construction")] }
    else
      { result := none
        loadingErrorOut := le
        events := ev1 ++ [Event.logFatal ("Failed to load .glTF ")] }
  else
    { result := none
      loadingErrorOut := loadingError
      events := [Event.logFatal ("File does not exist: ")] }

/-- Opening curly-brace character, written via its code point. -/
def lbrace : Char := Char.ofNat 123

/-- Closing curly-brace character, written via its code point. -/
def rbrace : Char := Char.ofNat 125

/-- Position of the first placeholder in a format string, mirroring
`fmt.find` of the two-character placeholder pattern in yocto::format_values. -/
def findPH : List Char → Option Nat
  | c1 :: c2 :: rest =>
    if c1 = lbrace ∧ c2 = rbrace then some 0
    else (findPH (c2 :: rest)).map (· + 1)
  | _ => none

/-- Number of (non-overlapping, left-to-right) placeholders in a format
string. -/
def countPH : List Char → Nat
  | c1 :: c2 :: rest =>
    if c1 = lbrace ∧ c2 = rbrace then countPH rest + 1
    else countPH (c2 :: rest)
  | _ => 0

/-- yocto::format_values: with no arguments left it throws when a placeholder
remains, otherwise appends the format string; with an argument it throws when
no placeholder remains, otherwise substitutes and recurses on the rest of the
format string.  Arguments are taken already formatted (format_value output). -/
def format_values (fmt : List Char) : List (List Char) → Except String (List Char)
  | [] =>
    match findPH fmt with
    | some _ => Except.error ("bad format string")
    | none => Except.ok fmt
  | a :: as =>
    match findPH fmt with
    | none => Except.error ("bad format string")
    | some pos =>
      (format_values (fmt.drop (pos + 2)) as).map (fun r => fmt.take pos ++ a ++ r)

/-- Specification-side substitution, written from the claim text: the format
string with each placeholder replaced, in order, by the formatted arguments. -/
def formatSpec : List Char → List (List Char) → List Char
  | c1 :: c2 :: rest, a :: as =>
    if c1 = lbrace ∧ c2 = rbrace then a ++ formatSpec rest as
    else c1 :: formatSpec (c2 :: rest) (a :: as)
  | fmt, _ => fmt

/-- Little-endian byte decomposition of a value of an `n`-byte type
(`source.bytes[k]` of the union in yocto::swap_endian). -/
def bytesOf : Nat → Nat → List Nat
  | 0, _ => []
  | n + 1, v => v % 256 :: bytesOf n (v / 256)

/-- Value of a little-endian byte list (`dest.value` of the union). -/
def valueOf : List Nat → Nat
  | [] => 0
  | b :: bs => b + 256 * valueOf bs

/-- yocto::swap_endian on an `n`-byte type: reverses the `n` bytes of the
argument and reassembles the value. -/
def swap_endian (n : Nat) (v : Nat) : Nat :=
  valueOf ((bytesOf n v).reverse)

/-! ## Helper lemmas -/

lemma idxGet_nil {α : Type} (i : Int) : idxGet ([] : List α) i = none := by
  simp [idxGet]

lemma idxGet_nonneg_of_eq_some {α : Type} {l : List α} {i : Int} {a : α}
    (h : idxGet l i = some a) : 0 ≤ i := by
  by_contra hneg
  simp [idxGet, hneg] at h

/-! ## Claim C2 -/

/-- Claim C2: for every path that does not name an existing file,
ModelGLTF::create logs a fatal message and returns a null ModelGLTFRef
immediately, before invoking the glTF parser; in this early-return branch the
loadingError out-parameter is left unchanged. -/
theorem C2_missing_file_early_return (parse : ParseResult) (opt : LoadOption)
    (loadingError : Option String) (name : String) :
    (ModelGLTF.create false parse opt loadingError name).result = none
    ∧ Event.logFatal ("File does not exist: ")
        ∈ (ModelGLTF.create false parse opt loadingError name).events
    ∧ Event.parserInvoked ∉ (ModelGLTF.create false parse opt loadingError name).events
    ∧ (ModelGLTF.create false parse opt loadingError name).loadingErrorOut = loadingError := by
  refine ⟨?_, ?_, ?_, ?_⟩ <;> simp [ModelGLTF.create]

/-! ## Claim C5 -/

/-- Claim C5 counterexample: a channel whose target path is "translation" (not
"weights") and whose target node 0 is present in the model is nevertheless
dropped by AnimationGLTF::create, because `if (!channel.node) continue;` tests
the integer node index for zero. -/
theorem C5_node_zero_counterexample :
    (AnimationGLTF.create
      { name := ""
        channels := [{ sampler := 0, target_node := 0, target_path := "translation" }]
        samplers := [] }).channels = []
    ∧ ("translation" ≠ "weights") ∧ ((0 : Int) ≠ -1) := by
  refine ⟨rfl, by decide, by decide⟩

lemma channelAccum_foldl (l : List tinygltf.AnimationChannel)
    (acc : List AnimationChannel) :
    l.foldl AnimationGLTF.channelAccum acc =
      acc ++ (l.filter
        (fun c => !(c.target_path == "weights") && !(c.target_node == 0))).map
        (fun c => { property := c
                    path := AnimationGLTF.pathOf c.target_path
                    samplerIndex := c.sampler
                    node := c.target_node }) := by
  induction l generalizing acc with
  | nil => simp
  | cons c l ih =>
    rw [List.foldl_cons, ih]
    by_cases hw : c.target_path = "weights"
    · simp [AnimationGLTF.channelAccum, hw, List.filter_cons]
    · by_cases hn : c.target_node = 0
      · simp [AnimationGLTF.channelAccum, hw, hn, List.filter_cons]
      · simp [AnimationGLTF.channelAccum, hw, hn, List.filter_cons]

/-- Claim C5 (amended): AnimationGLTF::create adds a channel if and only if
its target_path is not "weights" and its integer target node index is nonzero
(so a channel targeting node index 0 is dropped, and a channel with the
absent-node marker -1 is kept); every added channel preserves its source
sampler index and target node, in input order. -/
theorem C5_channels_filter (p : tinygltf.Animation) :
    (AnimationGLTF.create p).channels =
      (p.channels.filter
        (fun c => !(c.target_path == "weights") && !(c.target_node == 0))).map
        (fun c => { property := c
                    path := AnimationGLTF.pathOf c.target_path
                    samplerIndex := c.sampler
                    node := c.target_node }) := by
  simp [AnimationGLTF.create, channelAccum_foldl]

/-! ## Claim C9 -/

lemma length_bytesOf (n v : Nat) : (bytesOf n v).length = n := by
  induction n generalizing v with
  | zero => simp [bytesOf]
  | succ n ih => simp [bytesOf, ih]

lemma bytesOf_lt (n v : Nat) : ∀ b ∈ bytesOf n v, b < 256 := by
  induction n generalizing v with
  | zero => simp [bytesOf]
  | succ n ih =>
    intro b hb
    simp [bytesOf] at hb
    rcases hb with h | h
    · omega
    · exact ih (v / 256) b h

lemma valueOf_bytesOf (n v : Nat) (h : v < 256 ^ n) : valueOf (bytesOf n v) = v := by
  induction n generalizing v with
  | zero =>
    simp [pow_zero] at h
    simp [bytesOf, valueOf, h]
  | succ n ih =>
    have hdiv : v / 256 < 256 ^ n := by
      rw [Nat.div_lt_iff_lt_mul (by norm_num : 0 < 256)]
      calc v < 256 ^ (n + 1) := h
        _ = 256 ^ n * 256 := by ring
    simp [bytesOf, valueOf, ih (v / 256) hdiv]
    omega

lemma bytesOf_valueOf (bs : List Nat) (h : ∀ b ∈ bs, b < 256) :
    bytesOf bs.length (valueOf bs) = bs := by
  induction bs with
  | nil => simp [bytesOf]
  | cons b bs ih =>
    have hb : b < 256 := h b (by simp)
    have hmod : (b + 256 * valueOf bs) % 256 = b := by
      rw [Nat.add_mul_mod_self_left, Nat.mod_eq_of_lt hb]
    have hdiv : (b + 256 * valueOf bs) / 256 = valueOf bs := by
      rw [Nat.add_mul_div_left _ _ (by norm_num : 0 < 256),
        Nat.div_eq_of_lt hb]
      omega
    simp [bytesOf, valueOf, hmod, hdiv]
    exact ih (fun x hx => h x (by simp [hx]))

/-- Claim C9: yocto::swap_endian is an involution: for every value of an
`n`-byte fixed-width type (a value below 256 ^ n), reversing the byte
decomposition twice restores the value. -/
theorem C9_swap_endian_involution (n v : Nat) (h : v < 256 ^ n) :
    swap_endian n (swap_endian n v) = v := by
  unfold swap_endian
  have hrev : bytesOf n (valueOf ((bytesOf n v).reverse)) = (bytesOf n v).reverse := by
    have hlen : ((bytesOf n v).reverse).length = n := by
      simp [length_bytesOf]
    have := bytesOf_valueOf ((bytesOf n v).reverse)
      (fun b hb => bytesOf_lt n v b (List.mem_reverse.mp hb))
    rwa [hlen] at this
  rw [hrev, List.reverse_reverse]
  exact valueOf_bytesOf n v h

/-- Witness for C9 at a concrete four-byte value. -/
theorem C9_swap_endian_involution_witness :
    swap_endian 4 (swap_endian 4 305419896) = 305419896 :=
  C9_swap_endian_involution 4 305419896 (by norm_num)

/-! ## Claim C1 -/

/-- Claim C1: whenever the tinygltf parse fails (the loader returned false),
ModelGLTF::create logs a fatal message and returns a null ModelGLTFRef without
constructing any wrapper object; and on every path that reaches the parser,
if the loadingError out-parameter is non-null it is assigned the parser error
string. -/
theorem C1_parse_failure_returns_null (parse : ParseResult) (opt : LoadOption)
    (loadingError : Option String) (name : String) (hret : parse.ret = false) :
    (ModelGLTF.create true parse opt loadingError name).result = none
    ∧ Event.logFatal ("Failed to load .glTF ")
        ∈ (ModelGLTF.create true parse opt loadingError name).events
    ∧ (∀ k, Event.wrapperConstructed k
        ∉ (ModelGLTF.create true parse opt loadingError name).events)
    ∧ (parse.err ≠ "" →
        Event.logError parse.err ∈ (ModelGLTF.create true parse opt loadingError name).events)
    ∧ (ModelGLTF.create true parse opt loadingError name).loadingErrorOut
        = loadingError.map (fun _ => parse.err) := by
  refine ⟨?_, ?_, ?_, ?_, ?_⟩
  · simp [ModelGLTF.create, hret]
  · simp [ModelGLTF.create, hret, ModelGLTF.loadedEvents]
  · simp [ModelGLTF.create, hret, ModelGLTF.loadedEvents]
  · intro h
    simp [ModelGLTF.create, hret, ModelGLTF.loadedEvents, h]
  · simp [ModelGLTF.create, hret]

/-- Witness for C1: a failing parse with a non-empty error string and a
non-null loadingError pointer. -/
theorem C1_parse_failure_returns_null_witness :
    (ModelGLTF.create true { ret := false, err := "bad json", warn := "", model := {} }
      {} (some "") "m").result = none
    ∧ Event.logError "bad json"
        ∈ (ModelGLTF.create true { ret := false, err := "bad json", warn := "", model := {} }
          {} (some "") "m").events
    ∧ (ModelGLTF.create true { ret := false, err := "bad json", warn := "", model := {} }
      {} (some "") "m").loadingErrorOut = some "bad json" := by
  have h := C1_parse_failure_returns_null
    { ret := false, err := "bad json", warn := "", model := {} } {} (some "") "m" rfl
  exact ⟨h.1, h.2.2.2.1 (by decide), h.2.2.2.2⟩

/-! ## Claims C3 and C7: the create pipeline -/

/-- Claim C6: when the referenced buffer index is valid and
byteOffset + byteLength lies within the referenced buffer data (whose size is
representable in a size_t), every CI_ASSERT branch of BufferViewGLTF::create
is unreachable and the produced cpuBuffer windows exactly byteLength bytes
starting at byteOffset of the parent buffer; similarly, the two CI_ASSERTs of
createFromAccessor pass whenever the accessor type and componentType match the
assumed ones, and a WeakBuffer is produced. -/
theorem C6_bufferview_asserts (buffers : List BufferGLTF) (p : tinygltf.BufferView)
    (buf : BufferGLTF) (acc : AccessorGLTF) (t : GltfType) (c : GltfComponentType)
    (hb : idxGet buffers p.buffer = some buf)
    (hlen : p.byteOffset + p.byteLength ≤ buf.cpuBuffer.length)
    (hsize : buf.cpuBuffer.length < USIZE - 1)
    (ht : acc.property.type = t.toInt)
    (hc : acc.property.componentType = c.toInt) :
    BufferViewGLTF.assertsOk buffers p
    ∧ (BufferViewGLTF.create buffers p).cpuBuffer
        = (buf.cpuBuffer.drop p.byteOffset).take p.byteLength
    ∧ (BufferViewGLTF.create buffers p).cpuBuffer.length = p.byteLength
    ∧ createFromAccessor acc t c
        = some { data := (acc.cpuBuffer.drop acc.property.byteOffset).take
                   ((getTypeSizeInBytes t * getComponentSizeInBytes c).toNat
                     * acc.property.count)
                 type := t
                 componentType := c } := by
  have hgetD : idxGetD buffers p.buffer BufferGLTF.empty = buf := by
    simp [idxGetD, hb]
  have hnn : 0 ≤ p.buffer := idxGet_nonneg_of_eq_some hb
  refine ⟨⟨?_, ?_, ?_, ?_⟩, ?_, ?_, ?_⟩
  · omega
  · rw [hgetD] at *
    omega
  · rw [hgetD] at *
    omega
  · rw [hgetD]
    exact hlen
  · simp [BufferViewGLTF.create, hgetD]
  · simp [BufferViewGLTF.create, hgetD, List.length_take, List.length_drop]
    omega
  · simp [createFromAccessor, ht, hc]

/-- Witness for C6 at a concrete four-byte buffer with a two-byte view and a
matching float VEC3 accessor. -/
theorem C6_bufferview_asserts_witness :
    BufferViewGLTF.assertsOk [{ property := { data := [7, 8, 9, 10] }, cpuBuffer := [7, 8, 9, 10] }]
      { buffer := 0, byteOffset := 1, byteLength := 2 }
    ∧ (BufferViewGLTF.create [{ property := { data := [7, 8, 9, 10] }, cpuBuffer := [7, 8, 9, 10] }]
        { buffer := 0, byteOffset := 1, byteLength := 2 }).cpuBuffer = [8, 9] := by
  have h := C6_bufferview_asserts
    [{ property := { data := [7, 8, 9, 10] }, cpuBuffer := [7, 8, 9, 10] }]
    { buffer := 0, byteOffset := 1, byteLength := 2 }
    { property := { data := [7, 8, 9, 10] }, cpuBuffer := [7, 8, 9, 10] }
    { property := { type := 3, componentType := 5126 }, byteStride := 0, cpuBuffer := [] }
    GltfType.TYPE_VEC3 GltfComponentType.COMPONENT_TYPE_FLOAT
    rfl (by decide) (by decide) (by decide) (by decide)
  refine ⟨h.1, ?_⟩
  rw [h.2.1]
  rfl

/-! ## Claim C4 -/

lemma sizeSub1_zero : sizeSub1 0 = USIZE - 1 := by
  rw [sizeSub1, Nat.zero_add, Nat.mod_eq_of_lt (by norm_num [USIZE])]

lemma findPH_none_countPH : ∀ (fmt : List Char), findPH fmt = none → countPH fmt = 0
  | [] => by simp [findPH, countPH]
  | [c] => by simp [findPH, countPH]
  | c1 :: c2 :: rest => by
    intro h
    by_cases hc : c1 = lbrace ∧ c2 = rbrace
    · simp [findPH, hc] at h
    · simp only [findPH, hc, if_false] at h
      have hrec : findPH (c2 :: rest) = none := by
        cases hfind : findPH (c2 :: rest) <;> simp [hfind] at h ⊢
      simp [countPH, hc, findPH_none_countPH (c2 :: rest) hrec]

lemma findPH_some_countPH : ∀ (fmt : List Char) (pos : Nat), findPH fmt = some pos →
    countPH fmt = countPH (fmt.drop (pos + 2)) + 1
  | [], pos => by simp [findPH]
  | [c], pos => by simp [findPH]
  | c1 :: c2 :: rest, pos => by
    intro h
    by_cases hc : c1 = lbrace ∧ c2 = rbrace
    · simp only [findPH] at h
      rw [if_pos hc] at h
      injection h with h
      subst h
      simp [countPH, hc]
    · simp only [findPH] at h
      rw [if_neg hc] at h
      cases hq : findPH (c2 :: rest) with
      | none => rw [hq] at h; simp at h
      | some q =>
        rw [hq] at h
        simp at h
        subst h
        have ihq := findPH_some_countPH (c2 :: rest) q hq
        simp only [countPH, hc, if_false, ihq]
        congr 2

lemma formatSpec_nil : ∀ (fmt : List Char), formatSpec fmt [] = fmt
  | [] => rfl
  | [_] => rfl
  | _ :: _ :: _ => rfl

lemma formatSpec_some : ∀ (fmt : List Char) (pos : Nat) (a : List Char)
    (as : List (List Char)), findPH fmt = some pos →
    formatSpec fmt (a :: as) = fmt.take pos ++ a ++ formatSpec (fmt.drop (pos + 2)) as
  | [], pos, a, as => by simp [findPH]
  | [c], pos, a, as => by simp [findPH]
  | c1 :: c2 :: rest, pos, a, as => by
    intro h
    by_cases hc : c1 = lbrace ∧ c2 = rbrace
    · simp only [findPH] at h
      rw [if_pos hc] at h
      injection h with h
      subst h
      simp [formatSpec, hc]
    · simp only [findPH] at h
      rw [if_neg hc] at h
      cases hq : findPH (c2 :: rest) with
      | none => rw [hq] at h; simp at h
      | some q =>
        rw [hq] at h
        simp at h
        subst h
        have ihq := formatSpec_some (c2 :: rest) q a as hq
        simp only [formatSpec, hc, if_false, ihq]
        simp [List.take_succ_cons, List.drop_succ_cons]

/-- Claim C8: yocto::format_values throws std::invalid_argument exactly when
the number of placeholders in the format string differs from the number of
supplied arguments, and otherwise returns the format string with each
placeholder replaced, in order, by the formatted arguments. -/
theorem C8_format_values_spec : ∀ (args : List (List Char)) (fmt : List Char),
    ((∃ s, format_values fmt args = Except.ok s) ↔ countPH fmt = args.length)
    ∧ (∀ s, format_values fmt args = Except.ok s → s = formatSpec fmt args) := by
  intro args
  induction args with
  | nil =>
    intro fmt
    refine ⟨⟨?_, ?_⟩, ?_⟩
    · rintro ⟨s, hs⟩
      simp only [format_values] at hs
      cases hfind : findPH fmt with
      | some pos => simp [hfind] at hs
      | none => simp [findPH_none_countPH fmt hfind]
    · intro hcount
      cases hfind : findPH fmt with
      | some pos =>
        have := findPH_some_countPH fmt pos hfind
        simp only [List.length_nil] at hcount
        omega
      | none => exact ⟨fmt, by simp [format_values, hfind]⟩
    · intro s hs
      simp only [format_values] at hs
      cases hfind : findPH fmt with
      | some pos => simp [hfind] at hs
      | none =>
        simp only [hfind] at hs
        cases hs
        rw [formatSpec_nil]
  | cons a as ih =>
    intro fmt
    cases hfind : findPH fmt with
    | none =>
      refine ⟨⟨?_, ?_⟩, ?_⟩
      · rintro ⟨s, hs⟩
        simp [format_values, hfind] at hs
      · intro hcount
        rw [findPH_none_countPH fmt hfind] at hcount
        simp at hcount
      · intro s hs
        simp [format_values, hfind] at hs
    | some pos =>
      have hcnt := findPH_some_countPH fmt pos hfind
      have ihd := ih (fmt.drop (pos + 2))
      refine ⟨⟨?_, ?_⟩, ?_⟩
      · rintro ⟨s, hs⟩
        simp only [format_values, hfind] at hs
        cases hrec : format_values (fmt.drop (pos + 2)) as with
        | error e => simp [hrec, Except.map] at hs
        | ok r =>
          have hlen : countPH (fmt.drop (pos + 2)) = as.length := ihd.1.mp ⟨r, hrec⟩
          simp [hcnt, hlen]
      · intro hcount
        simp only [List.length_cons] at hcount
        have hlen : countPH (fmt.drop (pos + 2)) = as.length := by omega
        obtain ⟨r, hr⟩ := ihd.1.mpr hlen
        exact ⟨fmt.take pos ++ a ++ r, by simp [format_values, hfind, hr, Except.map]⟩
      · intro s hs
        simp only [format_values, hfind] at hs
        cases hrec : format_values (fmt.drop (pos + 2)) as with
        | error e => simp [hrec, Except.map] at hs
        | ok r =>
          simp only [hrec, Except.map] at hs
          cases hs
          rw [ihd.2 r hrec, formatSpec_some fmt pos a as hfind]

/-- Witness for C8: the format string "x=" followed by a placeholder, with one
argument "7", substitutes to "x=7"; the iff direction counts one placeholder
for the single argument. -/
theorem C8_format_values_spec_witness :
    format_values [Char.ofNat 120, Char.ofNat 61, lbrace, rbrace] [[Char.ofNat 55]]
      = Except.ok [Char.ofNat 120, Char.ofNat 61, Char.ofNat 55]
    ∧ [Char.ofNat 120, Char.ofNat 61, Char.ofNat 55]
        = formatSpec [Char.ofNat 120, Char.ofNat 61, lbrace, rbrace] [[Char.ofNat 55]]
    ∧ countPH [Char.ofNat 120, Char.ofNat 61, lbrace, rbrace] = 1 := by
  have h := C8_format_values_spec [[Char.ofNat 55]]
    [Char.ofNat 120, Char.ofNat 61, lbrace, rbrace]
  have hok : format_values [Char.ofNat 120, Char.ofNat 61, lbrace, rbrace] [[Char.ofNat 55]]
      = Except.ok [Char.ofNat 120, Char.ofNat 61, Char.ofNat 55] := by rfl
  exact ⟨hok, h.2 _ hok, h.1.mp ⟨_, hok⟩⟩

/-- Witness for C2 at a concrete missing-file call with a non-null
loadingError pointer holding a prior value. -/
theorem C2_missing_file_early_return_witness :
    (ModelGLTF.create false { ret := true, err := "x", warn := "", model := {} }
      {} (some "prior") "m").result = none
    ∧ Event.parserInvoked
        ∉ (ModelGLTF.create false { ret := true, err := "x", warn := "", model := {} }
          {} (some "prior") "m").events
    ∧ (ModelGLTF.create false { ret := true, err := "x", warn := "", model := {} }
      {} (some "prior") "m").loadingErrorOut = some "prior" := by
  have h := C2_missing_file_early_return
    { ret := true, err := "x", warn := "", model := {} } {} (some "prior") "m"
  exact ⟨h.1, h.2.2.1, h.2.2.2⟩
